import Mathlib

/-!
# Verification of the baileys REST service core

Shallow embedding of `src/utils/baileys.js` (journal, webhook dispatcher,
connection lifecycle manager, service facade) and the `/events` route of the
HTTP layer (`src/unnamed/part_000`).  Machine integers are modelled as `Nat`
or `Int`; JavaScript `Date` values are modelled as `Int` millisecond instants
(`none` where the parse yields `NaN`); fallible operations return `Except`.
-/

namespace Baileys

/-! ## Configuration constants (env defaults, `baileys.js` lines 14-21) -/

def WEBHOOK_MAX_RETRIES : Nat := 8
def WEBHOOK_RETRY_BASE_MS : Nat := 1000
def WEBHOOK_RETRY_MAX_MS : Nat := 30000
def RECONNECT_BASE_MS : Nat := 1500
def RECONNECT_MAX_MS : Nat := 30000

/-- `DisconnectReason.loggedOut` from the external `@whiskeysockets/baileys`
library (status code 401); the library is outside the repository, only the
code's comparison against this constant matters. -/
def loggedOutCode : Nat := 401

/-! ## `backoffMs` (`baileys.js` lines 58-62)

`Math.floor(Math.random() * 200)` is a jitter in `{0, …, 199}`; it is passed
in as a parameter.  `2 ** Math.max(0, attempt - 1)` is `2 ^ (attempt - 1)`
with truncated `Nat` subtraction, which agrees with the `Math.max(0, ·)`
clamp. -/

def backoffMs (attempt baseMs maxMs jitter : Nat) : Nat :=
  min maxMs (baseMs * 2 ^ (attempt - 1) + jitter)

/-! ## Event journal (`appendEvent` / `readEventsBetween`, lines 68-102)

A journal event as parsed from one line of `events.log`.  `timestamp` is
`none` when `new Date(parsed.timestamp)` is `NaN` (an ill-formed stamp);
events produced by `pushEvent` always carry a valid stamp.  A raw line of the
file is `Option JEvent`: `none` models a line on which `JSON.parse` throws. -/

structure JEvent where
  timestamp : Option Int
  eventType : String
  payload : String
deriving DecidableEq, Repr

/-- One line of the journal file: `none` is a corrupt (unparseable) line. -/
abbrev JLine : Type := Option JEvent

/-- The journal file on disk: `none` models a missing file
(`fs.existsSync` false). -/
abbrev JFile : Type := Option (List JLine)

/-- The body of the scan loop of `readEventsBetween`: a corrupt line is
skipped (the `catch` arm), a line whose timestamp is `NaN` is skipped
(`continue`), and a parsed event is kept exactly when
`ts >= startDate && ts <= endDate`. -/
def scanLine (startDate endDate : Int) : JLine → Option JEvent
  | none => none
  | some parsed =>
    match parsed.timestamp with
    | none => none
    | some ts => if startDate ≤ ts ∧ ts ≤ endDate then some parsed else none

/-- `readEventsBetween(dataDir, startDate, endDate)`: missing file yields
`[]`; otherwise every line is scanned in file order. -/
def readEventsBetween (file : JFile) (startDate endDate : Int) : List JEvent :=
  match file with
  | none => []
  | some rows => rows.filterMap (scanLine startDate endDate)

/-- `appendEvent(dataDir, event, log)` wraps `fs.appendFileSync` in
`try/catch`.  The filesystem outcome is a parameter; the function returns the
new file contents together with the log lines it emitted, wrapped in `Except`
to make "never throws" statable: the `.error` constructor models an uncaught
exception escaping to the caller. -/
def appendEvent (fsOutcome : Except String Unit) (file : List JLine)
    (event : JEvent) : Except String (List JLine × List String) :=
  match fsOutcome with
  | .ok _ => .ok (file ++ [some event], [])
  | .error _ => .ok (file, ["Failed to append event log"])

/-! ## `/events` route (`part_000` lines 69-109) -/

/-- A query-string date parameter as `parseDateInput` distinguishes them:
absent (`undefined`/`null`/`''`), a string whose `Date` parse is `NaN`, or a
valid instant. -/
inductive DateInput where
  | missing
  | invalid
  | valid (t : Int)
deriving DecidableEq, Repr

/-- `parseDateInput(value, key)` (`baileys.js` lines 45-56): absent input is
`{value: null}`, an unparseable date is `{error}`, otherwise `{value: date}`. -/
def parseDateInput : DateInput → Except String (Option Int)
  | .missing => .ok none
  | .invalid => .error "Invalid date. Use a valid ISO date string."
  | .valid t => .ok (some t)

/-- An HTTP error response (`statusCode`, message). -/
structure HttpError where
  statusCode : Nat
  message : String
deriving DecidableEq, Repr

/-- `app.get('/events')` (`part_000` lines 69-109): parse both bounds,
reject a parse error with 400, reject a missing bound with 400, reject
`start > end` with 400, and only then read the journal. -/
def getEvents (startQ endQ : DateInput) (file : JFile) :
    Except HttpError (List JEvent) :=
  match parseDateInput startQ, parseDateInput endQ with
  | .error e, _ => .error ⟨400, e⟩
  | .ok _, .error e => .error ⟨400, e⟩
  | .ok startV, .ok endV =>
    match startV, endV with
    | some s, some e =>
      if s > e then
        .error ⟨400, "start_date must be less than or equal to end_date."⟩
      else
        .ok (readEventsBetween file s e)
    | _, _ =>
      .error ⟨400, "Both start_date and end_date are required query params."⟩

/-! ## Connection lifecycle state (`createWhatsAppService` locals, lines 235-243)

`socket : Bool` records whether `socket` is non-null; `reconnectTimer`
records a pending timer together with the delay it was armed with.  The QR
data-url render and the account identity are kept abstract as strings. -/

/-- `lastDisconnectReason` is `statusCode || 'unknown'`: a present non-zero
status code, else the string `'unknown'` (0 is falsy in JavaScript). -/
inductive DisconnectCause where
  | code (n : Nat)
  | unknown
deriving DecidableEq, Repr

structure ConnState where
  socket : Bool
  connected : Bool
  currentQr : Option String
  currentQrDataUrl : Option String
  qrUpdatedAt : Option Int
  reconnectAttempts : Nat
  reconnectTimer : Option Nat
  lastDisconnectReason : Option DisconnectCause
  me : Option String
deriving DecidableEq, Repr

/-- The `connection === 'open'` branch of the `connection.update` handler
(lines 313-324): returns the new state and the list of event types pushed
through `pushEvent`. -/
def handleOpen (s : ConnState) (user : Option String) :
    ConnState × List String :=
  ({ s with
      connected := true
      reconnectAttempts := 0
      lastDisconnectReason := none
      currentQr := none
      currentQrDataUrl := none
      qrUpdatedAt := none
      me := user },
   ["connection.open"])

/-- `statusCode !== DisconnectReason.loggedOut`; `statusCode` is
`lastDisconnect?.error?.output?.statusCode` and may be absent, and an absent
code is not strictly equal to the logged-out constant. -/
def shouldReconnect (statusCode : Option Nat) : Bool :=
  statusCode ≠ some loggedOutCode

/-- `statusCode || 'unknown'` (line 329). -/
def disconnectCauseOf (statusCode : Option Nat) : DisconnectCause :=
  match statusCode with
  | some n => if n ≠ 0 then .code n else .unknown
  | none => .unknown

/-- Result of the `connection === 'close'` branch: the updated state, the
event types pushed, and the delays of the reconnect timers armed. -/
structure CloseResult where
  state : ConnState
  events : List String
  scheduled : List Nat
deriving DecidableEq, Repr

/-- The `connection === 'close'` branch of the `connection.update` handler
(lines 326-356): sets `connected = false`, records the disconnect reason,
pushes one `connection.close` event, and when `shouldReconnect` holds
increments `reconnectAttempts` and arms exactly one timer with a
`backoffMs` delay. -/
def handleClose (s : ConnState) (statusCode : Option Nat) (jitter : Nat) :
    CloseResult :=
  let base : ConnState :=
    { s with
        connected := false
        lastDisconnectReason := some (disconnectCauseOf statusCode) }
  if shouldReconnect statusCode then
    let attempts := s.reconnectAttempts + 1
    let delay := backoffMs attempts RECONNECT_BASE_MS RECONNECT_MAX_MS jitter
    { state := { base with reconnectAttempts := attempts, reconnectTimer := some delay }
      events := ["connection.close"]
      scheduled := [delay] }
  else
    { state := base
      events := ["connection.close"]
      scheduled := [] }

/-- `stop()` (lines 413-426): clears any pending reconnect timer, closes the
socket's websocket if present, and nulls the socket and the connected flag.
QR state, attempt counter and identity are untouched. -/
def stop (s : ConnState) : ConnState :=
  { s with reconnectTimer := none, socket := false, connected := false }

/-- The synchronous head of `connect(forceNewLogin)` (lines 263-290): the
first statement clears any outstanding reconnect timer; the function then
(after the optional auth wipe and version fetch) installs a fresh socket.
`connected` stays false until the `connection.update` open event. -/
def connect (s : ConnState) (forceNewLogin : Bool) : ConnState :=
  let s1 : ConnState := { s with reconnectTimer := none }
  let _ := forceNewLogin
  { s1 with socket := true }

/-- `ensureConnected()` (lines 399-405). -/
def ensureConnected (s : ConnState) : Except HttpError Unit :=
  if !s.socket || !s.connected then
    .error ⟨503, "WhatsApp is not connected. Authenticate first and wait for connection.open."⟩
  else
    .ok ()

/-! ## Service facade: target normalization and the send operations
(lines 123-137 and 441-528)

A request-body field is a JavaScript value that may be absent, a value of a
non-string type, or a string. -/

inductive JSVal where
  | absent
  | notString
  | str (s : String)
deriving DecidableEq, Repr

/-- JavaScript `String.prototype.trim`: strip leading and trailing
whitespace. -/
def trimChars (cs : List Char) : List Char :=
  ((cs.dropWhile Char.isWhitespace).reverse.dropWhile Char.isWhitespace).reverse

def jsTrim (s : String) : String := ⟨trimChars s.data⟩

/-- `normalizeTarget(target)` (lines 123-131): `!target` rejects an absent
value and the empty string, `typeof target !== 'string'` rejects non-string
values; everything else is returned trimmed. -/
def normalizeTarget : JSVal → Except HttpError String
  | .str s =>
    if s = "" then
      .error ⟨400, "target is required and must be a WhatsApp JID string."⟩
    else
      .ok (jsTrim s)
  | _ => .error ⟨400, "target is required and must be a WhatsApp JID string."⟩

/-- `throwBadRequest(message)` (lines 133-137). -/
def badRequest (message : String) : HttpError := ⟨400, message⟩

/-- Checks of the form `!x || typeof x !== 'string'` used on `message`,
`pollText`, `base64`, `filename`, `mimetype`: true exactly on a non-empty
string. -/
def isNonEmptyString : JSVal → Bool
  | .str s => s ≠ ""
  | _ => false

/-- `sendText({target, message})` (lines 441-451): validate the target, then
the message, then `ensureConnected`, then send and journal one `send.text`
event.  The first component is the caller-visible result (the jid on
success); the second is the list of event types appended to the journal by
the call. -/
def sendText (s : ConnState) (target message : JSVal) :
    Except HttpError String × List String :=
  match normalizeTarget target with
  | .error e => (.error e, [])
  | .ok jid =>
    if !isNonEmptyString message then
      (.error (badRequest "message is required and must be a string."), [])
    else
      match ensureConnected s with
      | .error e => (.error e, [])
      | .ok _ => (.ok jid, ["send.text"])

/-- `sendMedia({target, base64, filename, mimetype})` (lines 453-486). -/
def sendMedia (s : ConnState) (target base64 filename mimetype : JSVal) :
    Except HttpError String × List String :=
  match normalizeTarget target with
  | .error e => (.error e, [])
  | .ok jid =>
    if !isNonEmptyString base64 then
      (.error (badRequest "base64 is required and must be a base64 string."), [])
    else if !isNonEmptyString filename then
      (.error (badRequest "filename is required and must be a string."), [])
    else if !isNonEmptyString mimetype then
      (.error (badRequest "mimetype is required and must be a string."), [])
    else
      match ensureConnected s with
      | .error e => (.error e, [])
      | .ok _ => (.ok jid, ["send.media"])

/-- `pollOptions .map(o => String(o).trim()).filter(Boolean)` (lines
499-501): `String(·)` is the identity on the string options modelled here,
and `filter(Boolean)` drops the options that trim to the empty string. -/
def normalizePollOptions (opts : List String) : List String :=
  (opts.map jsTrim).filter (fun o => o ≠ "")

/-- `sendPoll({target, pollText, pollOptions})` (lines 488-528):
target, pollText, then the raw `Array.isArray && length >= 2` check, then
`ensureConnected`, and only after that the trimmed-non-empty normalization
with its own `>= 2` check.  `pollOptions = none` models a non-array value.
On success the caller gets the effective option list. -/
def sendPoll (s : ConnState) (target pollText : JSVal)
    (pollOptions : Option (List String)) :
    Except HttpError (String × List String) × List String :=
  match normalizeTarget target with
  | .error e => (.error e, [])
  | .ok jid =>
    if !isNonEmptyString pollText then
      (.error (badRequest "pollText is required and must be a string."), [])
    else
      match pollOptions with
      | none =>
        (.error (badRequest "pollOptions is required and must be an array with at least 2 options."), [])
      | some opts =>
        if opts.length < 2 then
          (.error (badRequest "pollOptions is required and must be an array with at least 2 options."), [])
        else
          match ensureConnected s with
          | .error e => (.error e, [])
          | .ok _ =>
            let options := normalizePollOptions opts
            if options.length < 2 then
              (.error (badRequest "pollOptions must contain at least 2 non-empty options."), [])
            else
              (.ok (jid, options), ["send.poll"])

/-! ## Webhook dispatcher (`makeWebhookDispatcher`, lines 139-222)

The single-flight worker `run` processes the head item to completion
(success, or drop after the retry ceiling) before touching the next item.
Delivery outcomes are an oracle `deliver : Nat → Bool` indexed by the value
of `item.attempt` at the time of the call (0 for the first attempt); the
jitter drawn before the k-th retry is `jitterF k`. -/

structure QItem where
  payload : String
  attempt : Nat
deriving DecidableEq, Repr

/-- Fate of one queue item under `run`: either delivered (with the final
attempt counter and the backoff delays slept through before each retry), or
dropped after the counter exceeded `WEBHOOK_MAX_RETRIES`. -/
inductive Outcome where
  | delivered (finalAttempt : Nat) (delays : List Nat)
  | dropped (finalAttempt : Nat) (delays : List Nat)
deriving DecidableEq, Repr

/-- The inner loop of `run` (lines 173-198) for the head item, parametric in
the configured ceiling: on success the item is shifted; on failure
`item.attempt` is incremented, the item is dropped once the counter exceeds
the ceiling (`next > maxRetries`), and otherwise the worker sleeps
`backoffMs(next, base, max)` and retries the same item.  The recursion is
structured on `left = maxRetries - attempt`, the number of further failures
the item can absorb before being dropped: `left = 0` exactly when
`attempt + 1 > maxRetries`. -/
def processHeadAux (deliver : Nat → Bool) (jitterF : Nat → Nat)
    (baseMs maxMs : Nat) : Nat → Nat → Outcome
  | 0, attempt =>
    if deliver attempt then .delivered attempt [] else .dropped (attempt + 1) []
  | left + 1, attempt =>
    if deliver attempt then
      .delivered attempt []
    else
      let next := attempt + 1
      let delay := backoffMs next baseMs maxMs (jitterF next)
      match processHeadAux deliver jitterF baseMs maxMs left next with
      | .delivered fin ds => .delivered fin (delay :: ds)
      | .dropped fin ds => .dropped fin (delay :: ds)

def processHead (deliver : Nat → Bool) (jitterF : Nat → Nat)
    (maxRetries baseMs maxMs : Nat) (attempt : Nat) : Outcome :=
  processHeadAux deliver jitterF baseMs maxMs (maxRetries - attempt) attempt

/-- The delays slept through by an item, and its final attempt counter. -/
def Outcome.delays : Outcome → List Nat
  | .delivered _ ds => ds
  | .dropped _ ds => ds

def Outcome.finalAttempt : Outcome → Nat
  | .delivered fin _ => fin
  | .dropped fin _ => fin

/-- `run` (lines 169-201) over a queue frozen at entry: each item is
processed to completion in order, and the worker always advances past a
dropped item (`queue.shift(); continue`). -/
def run (deliver : String → Nat → Bool) (jitterF : Nat → Nat)
    (maxRetries baseMs maxMs : Nat) :
    List QItem → List (String × Outcome)
  | [] => []
  | item :: rest =>
    (item.payload,
      processHead (deliver item.payload) jitterF maxRetries baseMs maxMs item.attempt)
      :: run deliver jitterF maxRetries baseMs maxMs rest

/-- `run` with the webhook configuration constants, as the dispatcher calls
it. -/
def webhookRun (deliver : String → Nat → Bool) (jitterF : Nat → Nat) :
    List QItem → List (String × Outcome) :=
  run deliver jitterF WEBHOOK_MAX_RETRIES WEBHOOK_RETRY_BASE_MS WEBHOOK_RETRY_MAX_MS

/-! ## Derived notions used by the statements -/

/-- An event parsed from the journal is well-formed when its timestamp
parses to an instant. -/
def wellFormed (rows : List JLine) : List JEvent :=
  (rows.filterMap id).filter (fun ev => ev.timestamp.isSome)

/-- The inclusive range test of the claim, as a predicate on events. -/
def eventInRange (startDate endDate : Int) (ev : JEvent) : Bool :=
  match ev.timestamp with
  | some ts => decide (startDate ≤ ts ∧ ts ≤ endDate)
  | none => false

lemma scanLine_eq_filter (s e : Int) (rows : List JLine) :
    rows.filterMap (scanLine s e) = (wellFormed rows).filter (eventInRange s e) := by
  induction rows with
  | nil => rfl
  | cons row rest ih =>
    cases row with
    | none =>
      simpa [wellFormed, scanLine] using ih
    | some ev =>
      cases hts : ev.timestamp with
      | none =>
        simp [wellFormed, scanLine, List.filterMap_cons, hts] at ih ⊢
        exact ih
      | some ts =>
        by_cases hin : s ≤ ts ∧ ts ≤ e
        · simp [wellFormed, scanLine, List.filterMap_cons, hts, hin, eventInRange] at ih ⊢
          exact ih
        · simp [wellFormed, scanLine, List.filterMap_cons, hts, hin, eventInRange] at ih ⊢
          exact ih

/-- **C1.** For every pair of instants with `start ≤ end`, the journal query
returns exactly the well-formed journalled events whose timestamp lies in
the inclusive range `[start, end]`, in storage order; and if either bound is
missing or `start > end`, `/events` fails with a 400 validation error whose
value is independent of the journal file (the journal is not read). -/
theorem events_query_spec (s e : Int) (hse : s ≤ e) (rows : List JLine)
    (q : DateInput) :
    getEvents (.valid s) (.valid e) (some rows)
      = .ok ((wellFormed rows).filter (eventInRange s e))
    ∧ (∃ err : HttpError, err.statusCode = 400 ∧
        ∀ f : JFile, getEvents .missing q f = .error err)
    ∧ (∃ err : HttpError, err.statusCode = 400 ∧
        ∀ f : JFile, getEvents q .missing f = .error err)
    ∧ (∀ s₂ e₂ : Int, e₂ < s₂ →
        ∃ err : HttpError, err.statusCode = 400 ∧
          ∀ f : JFile, getEvents (.valid s₂) (.valid e₂) f = .error err) := by
  refine ⟨?_, ?_, ?_, ?_⟩
  · simp [getEvents, parseDateInput, readEventsBetween, not_lt.mpr hse,
      scanLine_eq_filter]
  · cases q <;>
      exact ⟨_, rfl, fun f => rfl⟩
  · cases q <;>
      exact ⟨_, rfl, fun f => rfl⟩
  · intro s₂ e₂ h
    refine ⟨⟨400, "start_date must be less than or equal to end_date."⟩, rfl, fun f => ?_⟩
    simp [getEvents, parseDateInput, h]

theorem events_query_spec_witness :
    (0 : Int) ≤ 10
    ∧ (getEvents (.valid 0) (.valid 10)
          (some [some ⟨some 5, "connection.open", ""⟩, none,
                 some ⟨some 20, "send.text", ""⟩, some ⟨none, "bad", ""⟩])
        = .ok ((wellFormed [some ⟨some 5, "connection.open", ""⟩, none,
                 some ⟨some 20, "send.text", ""⟩, some ⟨none, "bad", ""⟩]).filter
                (eventInRange 0 10))
      ∧ (∃ err : HttpError, err.statusCode = 400 ∧
          ∀ f : JFile, getEvents .missing .missing f = .error err)
      ∧ (∃ err : HttpError, err.statusCode = 400 ∧
          ∀ f : JFile, getEvents .missing .missing f = .error err)
      ∧ (∀ s₂ e₂ : Int, e₂ < s₂ →
          ∃ err : HttpError, err.statusCode = 400 ∧
            ∀ f : JFile, getEvents (.valid s₂) (.valid e₂) f = .error err)) :=
  ⟨by decide,
   events_query_spec 0 10 (by decide)
     [some ⟨some 5, "connection.open", ""⟩, none,
      some ⟨some 20, "send.text", ""⟩, some ⟨none, "bad", ""⟩] .missing⟩

/-- **C6.** Journal persistence failures never propagate: `appendEvent`
returns normally for every filesystem outcome (a write failure leaves the
file unchanged and emits a log line instead of throwing); on read, a corrupt
line is skipped while the scan of every other line is unaffected, and a
missing journal file yields the empty result. -/
theorem journal_failures_contained (fsOutcome : Except String Unit)
    (file rows₁ rows₂ : List JLine) (event : JEvent) (s e : Int) :
    (appendEvent fsOutcome file event).isOk = true
    ∧ (fsOutcome.isOk = false →
        appendEvent fsOutcome file event = .ok (file, ["Failed to append event log"]))
    ∧ readEventsBetween none s e = []
    ∧ readEventsBetween (some (rows₁ ++ none :: rows₂)) s e
        = readEventsBetween (some (rows₁ ++ rows₂)) s e := by
  refine ⟨?_, ?_, rfl, ?_⟩
  · cases fsOutcome <;> rfl
  · intro h
    cases fsOutcome with
    | ok _ => simp [Except.isOk, Except.toBool] at h
    | error _ => rfl
  · simp [readEventsBetween, List.filterMap_append, scanLine]

theorem journal_failures_contained_witness :
    ((Except.error "disk full" : Except String Unit).isOk = false)
    ∧ ((appendEvent (.error "disk full") [] ⟨some 1, "t", ""⟩).isOk = true
      ∧ ((Except.error "disk full" : Except String Unit).isOk = false →
          appendEvent (.error "disk full") [] ⟨some 1, "t", ""⟩
            = .ok ([], ["Failed to append event log"]))
      ∧ readEventsBetween none 0 1 = []
      ∧ readEventsBetween (some ([some ⟨some 0, "a", ""⟩] ++ none :: [some ⟨some 1, "b", ""⟩])) 0 1
          = readEventsBetween (some ([some ⟨some 0, "a", ""⟩] ++ [some ⟨some 1, "b", ""⟩])) 0 1) :=
  ⟨by decide,
   journal_failures_contained (.error "disk full") [] [some ⟨some 0, "a", ""⟩]
     [some ⟨some 1, "b", ""⟩] ⟨some 1, "t", ""⟩ 0 1⟩

/-- **C2.** `shouldReconnect` is false exactly when the disconnect status
code equals the logged-out reason; on a logged-out close no reconnect is
scheduled and the attempt counter is unchanged, and on any other close
exactly one reconnect is scheduled, `reconnectAttempts` grows by exactly 1,
and `connected` becomes false. -/
theorem close_reconnect_policy (s : ConnState) (sc : Option Nat) (j : Nat) :
    (shouldReconnect sc = false ↔ sc = some loggedOutCode)
    ∧ (handleClose s (some loggedOutCode) j).scheduled = []
    ∧ (handleClose s (some loggedOutCode) j).state.reconnectAttempts
        = s.reconnectAttempts
    ∧ (handleClose s (some loggedOutCode) j).state.connected = false
    ∧ (shouldReconnect sc = true →
        (handleClose s sc j).scheduled.length = 1
        ∧ (handleClose s sc j).state.reconnectAttempts = s.reconnectAttempts + 1
        ∧ (handleClose s sc j).state.connected = false) := by
  refine ⟨?_, ?_, ?_, ?_, ?_⟩
  · simp [shouldReconnect]
  · simp [handleClose, shouldReconnect]
  · simp [handleClose, shouldReconnect]
  · simp [handleClose, shouldReconnect]
  · intro h
    refine ⟨?_, ?_, ?_⟩ <;> simp [handleClose, h]

theorem close_reconnect_policy_witness :
    shouldReconnect (some 428) = true
    ∧ ((handleClose ⟨true, true, none, none, none, 3, none, none, none⟩ (some 428) 7).scheduled.length = 1
      ∧ (handleClose ⟨true, true, none, none, none, 3, none, none, none⟩ (some 428) 7).state.reconnectAttempts = 3 + 1
      ∧ (handleClose ⟨true, true, none, none, none, 3, none, none, none⟩ (some 428) 7).state.connected = false) :=
  ⟨by decide,
   (close_reconnect_policy ⟨true, true, none, none, none, 3, none, none, none⟩
      (some 428) 7).2.2.2.2 (by decide)⟩

/-- **C9.** On session-open the handler sets `connected` to true, resets
`reconnectAttempts` to 0, clears every QR field and the last disconnect
reason, captures the account identity from the session, and emits exactly
one `connection.open` event. -/
theorem open_handler_spec (s : ConnState) (user : Option String) :
    (handleOpen s user).1.connected = true
    ∧ (handleOpen s user).1.reconnectAttempts = 0
    ∧ (handleOpen s user).1.currentQr = none
    ∧ (handleOpen s user).1.currentQrDataUrl = none
    ∧ (handleOpen s user).1.qrUpdatedAt = none
    ∧ (handleOpen s user).1.lastDisconnectReason = none
    ∧ (handleOpen s user).1.me = user
    ∧ (handleOpen s user).2 = ["connection.open"] :=
  ⟨rfl, rfl, rfl, rfl, rfl, rfl, rfl, rfl⟩

/-- **C7.** `stop` cancels any pending reconnect timer, closes the active
session, sets `connected` to false, and is idempotent; `connect` likewise
clears any outstanding reconnect timer. -/
theorem stop_cancels_reconnect (s : ConnState) (forceNewLogin : Bool) :
    (stop s).reconnectTimer = none
    ∧ (stop s).socket = false
    ∧ (stop s).connected = false
    ∧ stop (stop s) = stop s
    ∧ (connect s forceNewLogin).reconnectTimer = none :=
  ⟨rfl, rfl, rfl, rfl, rfl⟩

lemma processHeadAux_alwaysFail {deliver : Nat → Bool}
    (hfail : ∀ n, deliver n = false) (jf : Nat → Nat) (b m : Nat) :
    ∀ left attempt, processHeadAux deliver jf b m left attempt
      = .dropped (attempt + left + 1)
          ((List.range' (attempt + 1) left).map (fun k => backoffMs k b m (jf k))) := by
  intro left
  induction left with
  | zero => intro attempt; simp [processHeadAux, hfail]
  | succ l ih =>
    intro attempt
    simp only [processHeadAux, hfail, Bool.false_eq_true, if_false, ih (attempt + 1)]
    simp [List.range'_succ]
    omega

/-- **C8.** The retry delay is `min(max, base · 2^(n-1) + j)` for a jitter
`0 ≤ j < 200` and never exceeds the configured maximum; the reconnect
scheduler arms its timer with exactly `backoffMs` over the reconnect
configuration, and the webhook worker sleeps exactly `backoffMs` over its
own configuration before a retry. -/
theorem backoff_formula_spec (n base maxMs j : Nat) (hn : 1 ≤ n) (hj : j < 200)
    (s : ConnState) (sc : Option Nat) (deliver : Nat → Bool) (jf : Nat → Nat)
    (mr b m attempt : Nat) :
    backoffMs n base maxMs j = min maxMs (base * 2 ^ (n - 1) + j)
    ∧ backoffMs n base maxMs j ≤ maxMs
    ∧ (shouldReconnect sc = true →
        (handleClose s sc j).scheduled
          = [backoffMs (s.reconnectAttempts + 1) RECONNECT_BASE_MS RECONNECT_MAX_MS j])
    ∧ (deliver attempt = false → attempt < mr →
        ∃ ds, (processHead deliver jf mr b m attempt).delays
          = backoffMs (attempt + 1) b m (jf (attempt + 1)) :: ds) := by
  refine ⟨rfl, min_le_left _ _, ?_, ?_⟩
  · intro h
    simp [handleClose, h]
  · intro hd hlt
    obtain ⟨l, hl⟩ : ∃ l, mr - attempt = l + 1 := ⟨mr - attempt - 1, by omega⟩
    rw [processHead, hl]
    simp only [processHeadAux, hd, Bool.false_eq_true, if_false]
    cases processHeadAux deliver jf b m l (attempt + 1) <;>
      exact ⟨_, rfl⟩

theorem backoff_formula_spec_witness :
    (1 ≤ 3 ∧ 50 < 200 ∧ ((fun _ : Nat => false) 0) = false ∧ 0 < 2)
    ∧ (backoffMs 3 1000 30000 50 = min 30000 (1000 * 2 ^ (3 - 1) + 50)
      ∧ backoffMs 3 1000 30000 50 ≤ 30000
      ∧ (shouldReconnect (some 428) = true →
          (handleClose ⟨true, true, none, none, none, 0, none, none, none⟩ (some 428) 50).scheduled
            = [backoffMs (0 + 1) RECONNECT_BASE_MS RECONNECT_MAX_MS 50])
      ∧ ((fun _ : Nat => false) 0 = false → 0 < 2 →
          ∃ ds, (processHead (fun _ => false) (fun _ => 9) 2 1000 30000 0).delays
            = backoffMs (0 + 1) 1000 30000 ((fun _ : Nat => 9) (0 + 1)) :: ds)) :=
  ⟨⟨by decide, by decide, rfl, by decide⟩,
   backoff_formula_spec 3 1000 30000 50 (by decide) (by decide)
     ⟨true, true, none, none, none, 0, none, none, none⟩ (some 428)
     (fun _ => false) (fun _ => 9) 2 1000 30000 0⟩

/-- **C4.** An item whose destination fails every delivery attempt has its
attempt counter incremented on each failure and is dropped exactly when the
counter first exceeds the retry ceiling (after `WEBHOOK_MAX_RETRIES` backoff
sleeps); the worker advances past it, so the items behind it are still
processed, and a next item whose delivery succeeds is delivered normally. -/
theorem webhook_drop_advances (deliver : String → Nat → Bool) (jf : Nat → Nat)
    (bad good : String) (rest : List QItem)
    (hbad : ∀ n, deliver bad n = false) (hgood : deliver good 0 = true) :
    (∃ ds, processHead (deliver bad) jf WEBHOOK_MAX_RETRIES WEBHOOK_RETRY_BASE_MS
          WEBHOOK_RETRY_MAX_MS 0 = .dropped (WEBHOOK_MAX_RETRIES + 1) ds
        ∧ ds.length = WEBHOOK_MAX_RETRIES)
    ∧ webhookRun deliver jf (⟨bad, 0⟩ :: rest)
        = (bad, processHead (deliver bad) jf WEBHOOK_MAX_RETRIES WEBHOOK_RETRY_BASE_MS
            WEBHOOK_RETRY_MAX_MS 0) :: webhookRun deliver jf rest
    ∧ webhookRun deliver jf (⟨bad, 0⟩ :: ⟨good, 0⟩ :: rest)
        = (bad, processHead (deliver bad) jf WEBHOOK_MAX_RETRIES WEBHOOK_RETRY_BASE_MS
            WEBHOOK_RETRY_MAX_MS 0)
          :: (good, .delivered 0 []) :: webhookRun deliver jf rest := by
  refine ⟨?_, rfl, ?_⟩
  · refine ⟨(List.range' 1 WEBHOOK_MAX_RETRIES).map
        (fun k => backoffMs k WEBHOOK_RETRY_BASE_MS WEBHOOK_RETRY_MAX_MS (jf k)), ?_, ?_⟩
    · rw [processHead]
      exact processHeadAux_alwaysFail hbad jf WEBHOOK_RETRY_BASE_MS WEBHOOK_RETRY_MAX_MS
        (WEBHOOK_MAX_RETRIES - 0) 0
    · simp
  · have hg : processHead (deliver good) jf WEBHOOK_MAX_RETRIES WEBHOOK_RETRY_BASE_MS
        WEBHOOK_RETRY_MAX_MS 0 = .delivered 0 [] := by
      rw [processHead]
      show processHeadAux (deliver good) jf _ _ 8 0 = _
      simp [processHeadAux, hgood]
    simp [webhookRun, run, hg]

/-- Concrete delivery oracle for the C4 witness: only the payload `"good"`
is ever accepted. -/
def deliverW : String → Nat → Bool := fun p _ => p == "good"

theorem webhook_drop_advances_witness :
    ((∀ n, deliverW "bad" n = false) ∧ deliverW "good" 0 = true)
    ∧ ((∃ ds, processHead (deliverW "bad") (fun _ => 0) WEBHOOK_MAX_RETRIES
            WEBHOOK_RETRY_BASE_MS WEBHOOK_RETRY_MAX_MS 0
          = .dropped (WEBHOOK_MAX_RETRIES + 1) ds ∧ ds.length = WEBHOOK_MAX_RETRIES)
      ∧ webhookRun deliverW (fun _ => 0) [⟨"bad", 0⟩]
          = (("bad", processHead (deliverW "bad") (fun _ => 0) WEBHOOK_MAX_RETRIES
              WEBHOOK_RETRY_BASE_MS WEBHOOK_RETRY_MAX_MS 0)) :: webhookRun deliverW (fun _ => 0) []
      ∧ webhookRun deliverW (fun _ => 0) [⟨"bad", 0⟩, ⟨"good", 0⟩]
          = (("bad", processHead (deliverW "bad") (fun _ => 0) WEBHOOK_MAX_RETRIES
              WEBHOOK_RETRY_BASE_MS WEBHOOK_RETRY_MAX_MS 0))
            :: (("good", .delivered 0 [])) :: webhookRun deliverW (fun _ => 0) []) :=
  ⟨⟨fun _ => rfl, rfl⟩,
   webhook_drop_advances deliverW (fun _ => 0) "bad" "good" [] (fun _ => rfl) rfl⟩

lemma ensureConnected_not_connected (s : ConnState)
    (h : s.socket = false ∨ s.connected = false) :
    ensureConnected s
      = .error ⟨503, "WhatsApp is not connected. Authenticate first and wait for connection.open."⟩ := by
  rcases h with h | h <;> simp [ensureConnected, h]

/-- **C5.** Every send operation invoked without an open session — on inputs
that pass field validation — fails with a 503 not-connected classification
and appends nothing to the journal. -/
theorem send_requires_connection (s : ConnState)
    (t msg b64 fn mt pt : String) (opts : List String)
    (hconn : s.socket = false ∨ s.connected = false)
    (ht : t ≠ "") (hm : msg ≠ "") (hb : b64 ≠ "") (hf : fn ≠ "")
    (hmime : mt ≠ "") (hp : pt ≠ "") (hopts : 2 ≤ opts.length) :
    (∃ err, sendText s (.str t) (.str msg) = (.error err, [])
        ∧ err.statusCode = 503)
    ∧ (∃ err, sendMedia s (.str t) (.str b64) (.str fn) (.str mt) = (.error err, [])
        ∧ err.statusCode = 503)
    ∧ (∃ err, sendPoll s (.str t) (.str pt) (some opts) = (.error err, [])
        ∧ err.statusCode = 503) := by
  have hc := ensureConnected_not_connected s hconn
  refine
    ⟨⟨⟨503, "WhatsApp is not connected. Authenticate first and wait for connection.open."⟩, ?_, rfl⟩,
     ⟨⟨503, "WhatsApp is not connected. Authenticate first and wait for connection.open."⟩, ?_, rfl⟩,
     ⟨⟨503, "WhatsApp is not connected. Authenticate first and wait for connection.open."⟩, ?_, rfl⟩⟩
  · simp [sendText, normalizeTarget, ht, isNonEmptyString, hm, hc]
  · simp [sendMedia, normalizeTarget, ht, isNonEmptyString, hb, hf, hmime, hc]
  · simp [sendPoll, normalizeTarget, ht, isNonEmptyString, hp, hc, Nat.not_lt.mpr hopts]

theorem send_requires_connection_witness :
    ((⟨false, false, none, none, none, 0, none, none, none⟩ : ConnState).socket = false
        ∨ (⟨false, false, none, none, none, 0, none, none, none⟩ : ConnState).connected = false)
    ∧ ((∃ err, sendText ⟨false, false, none, none, none, 0, none, none, none⟩
            (.str "123@s.whatsapp.net") (.str "hi") = (.error err, []) ∧ err.statusCode = 503)
      ∧ (∃ err, sendMedia ⟨false, false, none, none, none, 0, none, none, none⟩
            (.str "123@s.whatsapp.net") (.str "QUJD") (.str "a.txt") (.str "text/plain")
            = (.error err, []) ∧ err.statusCode = 503)
      ∧ (∃ err, sendPoll ⟨false, false, none, none, none, 0, none, none, none⟩
            (.str "123@s.whatsapp.net") (.str "Pick one") (some ["A", "B"])
            = (.error err, []) ∧ err.statusCode = 503)) :=
  ⟨Or.inl rfl,
   send_requires_connection ⟨false, false, none, none, none, 0, none, none, none⟩
     "123@s.whatsapp.net" "hi" "QUJD" "a.txt" "text/plain" "Pick one" ["A", "B"]
     (Or.inl rfl) (by decide) (by decide) (by decide) (by decide) (by decide)
     (by decide) (by decide)⟩

/-- **C10.** A non-empty but whitespace-only target passes target
validation and is returned trimmed — hence empty; only an absent,
non-string, or empty-string target is rejected, so a whitespace-only target
proceeds past validation to the connectivity check and the send. -/
theorem whitespace_target_passes (v : JSVal) (s : ConnState)
    (hsock : s.socket = true) (hconn : s.connected = true) :
    normalizeTarget (.str " ") = .ok ""
    ∧ ((normalizeTarget v).isOk = false
        ↔ (v = .absent ∨ v = .notString ∨ v = .str ""))
    ∧ (∀ t : String, t ≠ "" → normalizeTarget (.str t) = .ok (jsTrim t))
    ∧ sendText s (.str " ") (.str "hello") = (.ok "", ["send.text"]) := by
  have htrim : jsTrim " " = "" := by decide
  refine ⟨by rw [normalizeTarget]; simp [htrim], ?_, ?_, ?_⟩
  · cases v with
    | absent => simp [normalizeTarget, Except.isOk, Except.toBool]
    | notString => simp [normalizeTarget, Except.isOk, Except.toBool]
    | str t =>
      by_cases hne : t = "" <;>
        simp [normalizeTarget, hne, Except.isOk, Except.toBool]
  · intro t hne
    simp [normalizeTarget, hne]
  · simp [sendText, normalizeTarget, isNonEmptyString, ensureConnected,
      hsock, hconn, htrim]

theorem whitespace_target_passes_witness :
    ((⟨true, true, none, none, none, 0, none, none, none⟩ : ConnState).socket = true
        ∧ (⟨true, true, none, none, none, 0, none, none, none⟩ : ConnState).connected = true)
    ∧ (normalizeTarget (.str " ") = .ok ""
      ∧ ((normalizeTarget .absent).isOk = false
          ↔ (JSVal.absent = .absent ∨ JSVal.absent = .notString ∨ JSVal.absent = .str ""))
      ∧ (∀ t : String, t ≠ "" → normalizeTarget (.str t) = .ok (jsTrim t))
      ∧ sendText ⟨true, true, none, none, none, 0, none, none, none⟩
          (.str " ") (.str "hello") = (.ok "", ["send.text"])) :=
  ⟨⟨rfl, rfl⟩,
   whitespace_target_passes .absent ⟨true, true, none, none, none, 0, none, none, none⟩
     rfl rfl⟩

/-- The HTTP status with which a modelled send call fails, if it fails. -/
def sendStatus {α : Type} (r : Except HttpError α × List String) : Option Nat :=
  match r.1 with
  | .error e => some e.statusCode
  | .ok _ => none

/-- **C3 counterexample.** With no session open, a `sendPoll` call whose
options have raw length 2 but normalize to fewer than 2 non-empty options
(`["A", " "]`) fails with 503 (service unavailable), not with a 400
validation classification: the normalized-option check runs only after
`ensureConnected`. -/
theorem sendPoll_normalized_check_after_connect :
    sendStatus (sendPoll ⟨false, false, none, none, none, 0, none, none, none⟩
        (.str "123@s.whatsapp.net") (.str "Favourite?") (some ["A", " "]))
      = some 503
    ∧ sendStatus (sendPoll ⟨false, false, none, none, none, 0, none, none, none⟩
        (.str "123@s.whatsapp.net") (.str "Favourite?") (some ["A", " "]))
      ≠ some 400 := by decide

/-- **C3 (amended).** `sendPoll` validates target, pollText and the raw
array-length-≥-2 requirement before `ensureConnected`, so a single-option
call fails with a 400 validation classification even with no session open;
the trimmed-non-empty count is checked only after `ensureConnected`, so a
call whose options normalize to fewer than 2 fails 503 when no session is
open and 400 when connected; `["A", " ", "B"]` passes with effective
options `["A", "B"]`. -/
theorem sendPoll_validation_spec (s : ConnState) (t pt : String)
    (opts : List String) (ht : t ≠ "") (hpt : pt ≠ "") :
    (opts.length < 2 →
        ∃ err, sendPoll s (.str t) (.str pt) (some opts) = (.error err, [])
          ∧ err.statusCode = 400)
    ∧ (2 ≤ opts.length → s.socket = false ∨ s.connected = false →
        ∃ err, sendPoll s (.str t) (.str pt) (some opts) = (.error err, [])
          ∧ err.statusCode = 503)
    ∧ (2 ≤ opts.length → (normalizePollOptions opts).length < 2 →
        s.socket = true → s.connected = true →
        sendPoll s (.str t) (.str pt) (some opts)
          = (.error (badRequest "pollOptions must contain at least 2 non-empty options."), []))
    ∧ (s.socket = true → s.connected = true →
        sendPoll s (.str t) (.str pt) (some ["A", " ", "B"])
          = (.ok (jsTrim t, ["A", "B"]), ["send.poll"])) := by
  refine ⟨?_, ?_, ?_, ?_⟩
  · intro hlen
    exact ⟨badRequest "pollOptions is required and must be an array with at least 2 options.",
      by simp [sendPoll, normalizeTarget, ht, isNonEmptyString, hpt, hlen], rfl⟩
  · intro hlen hdisc
    exact ⟨⟨503, "WhatsApp is not connected. Authenticate first and wait for connection.open."⟩,
      by
        simp [sendPoll, normalizeTarget, ht, isNonEmptyString, hpt, Nat.not_lt.mpr hlen,
          ensureConnected_not_connected s hdisc],
      rfl⟩
  · intro hlen hnorm hsock hconn
    simp [sendPoll, normalizeTarget, ht, isNonEmptyString, hpt, Nat.not_lt.mpr hlen,
      ensureConnected, hsock, hconn, normalizePollOptions] at hnorm ⊢
    simp [hnorm]
  · intro hsock hconn
    have hopts : normalizePollOptions ["A", " ", "B"] = ["A", "B"] := by decide
    simp [sendPoll, normalizeTarget, ht, isNonEmptyString, hpt,
      ensureConnected, hsock, hconn, hopts]

theorem sendPoll_validation_spec_witness :
    ("123@s.whatsapp.net" ≠ "" ∧ "Favourite?" ≠ "" ∧ (["only one"] : List String).length < 2)
    ∧ (∃ err, sendPoll ⟨false, false, none, none, none, 0, none, none, none⟩
          (.str "123@s.whatsapp.net") (.str "Favourite?") (some ["only one"])
        = (.error err, []) ∧ err.statusCode = 400) :=
  ⟨⟨by decide, by decide, by decide⟩,
   (sendPoll_validation_spec ⟨false, false, none, none, none, 0, none, none, none⟩
      "123@s.whatsapp.net" "Favourite?" ["only one"] (by decide) (by decide)).1
     (by decide)⟩

end Baileys
